import Mathlib

/-!
# KAT `ref` filter: the argument bundle `KmerFilterArgs`

A shallow embedding of `src/filter/kmer/kmer_filter_args.hpp`.

* Fixed-width unsigned integers are natural numbers; every store into a
  field of width `w` goes through `toUInt w`, the C++ conversion to an
  unsigned type (the value modulo `2 ^ w`).
* `std::string` is `String`, `std::vector<T>` is `List T`.
* The member functions that assign fields take the object as an argument
  and return the updated object.
* `strToInt64` and `strToInt16` come from `str_utils.hpp`; they are taken
  as parameters, returning the mathematical value of whatever integer type
  they yield.
-/

set_option linter.unusedVariables false
set_option maxRecDepth 100000

namespace kat

/-- Conversion of an integer value to an unsigned type of `w` bits. -/
def toUInt (w : Nat) (v : Int) : Nat := (v % (2 : Int) ^ w).toNat

/-- The `int` value of a character literal such as `'o'`. -/
def code (ch : Char) : Int := (ch.toNat : Int)

/-! ## Constants (lines 38-49) -/

/-- Source: `const uint64_t DEFAULT_REF_LOW_COUNT = 0;` -/
def DEFAULT_REF_LOW_COUNT : Nat := toUInt 64 0
/-- Source: `const uint64_t DEFAULT_REF_HIGH_COUNT = 10000;` -/
def DEFAULT_REF_HIGH_COUNT : Nat := toUInt 64 10000
/-- Source: `const uint16_t DEFAULT_REF_LOW_GC = 0;` -/
def DEFAULT_REF_LOW_GC : Nat := toUInt 16 0
/-- Source: `const uint16_t DEFAULT_REF_HIGH_GC = 10000;` -/
def DEFAULT_REF_HIGH_GC : Nat := toUInt 16 10000
/-- Source: `const bool DEFAULT_REF_DISCARD = false;` -/
def DEFAULT_REF_DISCARD : Bool := false
/-- Source: `const bool DEFAULT_REF_GC_PERC = false;` -/
def DEFAULT_REF_GC_PERC : Bool := false
/-- Source: `const char* DEFAULT_REF_OUTPUT = "kat.ref";` -/
def DEFAULT_REF_OUTPUT : String := "kat.ref"
/-- Source: `const char* DEFAULT_REF_SEQ_FILE_1 = "";` -/
def DEFAULT_REF_SEQ_FILE_1 : String := ""
/-- Source: `const char* DEFAULT_REF_SEQ_FILE_2 = "";` -/
def DEFAULT_REF_SEQ_FILE_2 : String := ""
/-- Source: `const uint16_t REF_MIN_ARGS = 1;` -/
def REF_MIN_ARGS : Nat := toUInt 16 1

/-! ## The public fields (lines 187-196) -/

/-- The data members of `class KmerFilterArgs`: `low_count`, `high_count`
are `uint64_t`, `low_gc`, `high_gc` are `uint32_t`. -/
structure KmerFilterArgs where
  low_count : Nat
  high_count : Nat
  low_gc : Nat
  high_gc : Nat
  discard : Bool
  gc_perc : Bool
  output : String
  seq_file_1 : String
  seq_file_2 : String
  jellyfish_hash : String
  deriving DecidableEq, Repr

namespace KmerFilterArgs

/-- The default constructor `KmerFilterArgs()` (lines 198-208): each
initialiser converts its constant to the type of the field;
`jellyfish_hash` has no initialiser and is the empty string. -/
def new : KmerFilterArgs :=
  { low_count := toUInt 64 DEFAULT_REF_LOW_COUNT
    high_count := toUInt 64 DEFAULT_REF_HIGH_COUNT
    low_gc := toUInt 32 DEFAULT_REF_LOW_GC
    high_gc := toUInt 32 DEFAULT_REF_HIGH_GC
    discard := DEFAULT_REF_DISCARD
    gc_perc := DEFAULT_REF_GC_PERC
    output := DEFAULT_REF_OUTPUT
    seq_file_1 := DEFAULT_REF_SEQ_FILE_1
    seq_file_2 := DEFAULT_REF_SEQ_FILE_2
    jellyfish_hash := "" }

/-- The member function `setOption(int c, string& option_arg)` (lines
127-160). The body never reads its parameter `option_arg`: every branch
reads the getopt global `optarg`, passed here as an argument. The `switch`
has no `default` label, so any other `c` leaves the object as it is. -/
def setOption (strToInt64 strToInt16 : String → Int) (optarg : String)
    (c : Int) (option_arg : String) (a : KmerFilterArgs) : KmerFilterArgs :=
  if c = code 'o' then { a with output := optarg }
  else if c = code 'i' then { a with seq_file_1 := optarg }
  else if c = code 'j' then { a with seq_file_2 := optarg }
  else if c = code 'l' then { a with low_count := toUInt 64 (strToInt64 optarg) }
  else if c = code 'h' then { a with high_count := toUInt 64 (strToInt64 optarg) }
  else if c = code 'x' then { a with low_gc := toUInt 32 (strToInt16 optarg) }
  else if c = code 'y' then { a with high_gc := toUInt 32 (strToInt16 optarg) }
  else if c = code 'd' then { a with discard := true }
  else if c = code 'g' then { a with gc_perc := true }
  else a

/-- The member function `processRemainingArgs` (lines 162-165):
`jellyfish_hash = remaining_args[0]`. Indexing an empty vector is undefined
behaviour, modelled as `none`. -/
def processRemainingArgs (remaining_args : List String) (a : KmerFilterArgs) :
    Option KmerFilterArgs :=
  match remaining_args[0]? with
  | some s => some { a with jellyfish_hash := s }
  | none => none

end KmerFilterArgs

/-- One call of `setOption` made while the command line is scanned: the
value of the global `optarg` at that moment and the two arguments. -/
structure OptionCall where
  optarg : String
  c : Int
  option_arg : String
  deriving DecidableEq, Repr

/-- A run of `setOption` calls, applied to the object from left to right. -/
def setOptions (strToInt64 strToInt16 : String → Int) :
    List OptionCall → KmerFilterArgs → KmerFilterArgs
  | [], a => a
  | k :: ks, a =>
    setOptions strToInt64 strToInt16 ks
      (a.setOption strToInt64 strToInt16 k.optarg k.c k.option_arg)

/-! ## The option tables (lines 80-125) -/

/-- The stream manipulator `endl`, as far as the text is concerned. -/
def endl : String := "\n"

/-- The member function `optionsDescription` (lines 80-95): the help text
built by streaming literals and default constants into `help_str`. -/
def optionsDescription : String :=
  " -o, --output_prefix=path    Output prefix for the filtered file and hash. (\""
    ++ DEFAULT_REF_OUTPUT ++ "\")" ++ endl
  ++ " -i, --seq_file_1=path       The input sequence file to filter.  If you are using paired data this option specifies the first file." ++ endl
  ++ " -j, --seq_file_2=path       The second input sequence file to filter if you are using paired data." ++ endl
  ++ " -l, --low_count=uint64      Low kmer count limit (" ++ toString DEFAULT_REF_LOW_COUNT ++ ")" ++ endl
  ++ " -h, --high_count=uint64     High kmer count limit (" ++ toString DEFAULT_REF_HIGH_COUNT ++ ")" ++ endl
  ++ " -x, --low_gc=uint16         Low GC count limit. (\"" ++ toString DEFAULT_REF_LOW_GC ++ "\")" ++ endl
  ++ " -y, --high_gc=uint16        High GC count limit. (\"" ++ toString DEFAULT_REF_HIGH_GC ++ "\")" ++ endl
  ++ " -d, --discard_selection     Discard kmers and sequences equal to or within the limits rather than outside the limits." ++ endl
  ++ " -g, --gc_perc               GC limits are defined as percentages, not raw counts." ++ endl

/-- The getopt record `struct option`: `name`, `has_arg`, `flag` (a pointer,
`none` when null) and `val`. -/
structure option where
  name : String
  has_arg : Int
  flag : Option Nat
  val : Int
  deriving DecidableEq, Repr

/-- The getopt constant `no_argument`. -/
def no_argument : Int := 0
/-- The getopt constant `required_argument`. -/
def required_argument : Int := 1

/-- The static table `long_options_array` of `longOptions` (lines 99-110). -/
def long_options_array : List option :=
  [ ⟨"output", required_argument, none, code 'o'⟩,
    ⟨"seq_file_1", required_argument, none, code 'i'⟩,
    ⟨"seq_file_2", required_argument, none, code 'j'⟩,
    ⟨"low_count", required_argument, none, code 'l'⟩,
    ⟨"high_count", required_argument, none, code 'h'⟩,
    ⟨"low_gc", required_argument, none, code 'x'⟩,
    ⟨"high_gc", required_argument, none, code 'y'⟩,
    ⟨"discard_selection", no_argument, none, code 'd'⟩,
    ⟨"gc_perc", no_argument, none, code 'g'⟩ ]

/-- The member function `longOptions` (lines 97-120): the loop
`for (i = 0; i < 9; i++) long_options->push_back(long_options_array[i])`.
Reading past the end of the array is undefined behaviour, modelled as
`none`. -/
def longOptions : Option (List option) :=
  (List.range 9).foldlM
    (fun long_options i =>
      match long_options_array[i]? with
      | some o => some (long_options ++ [o])
      | none => none)
    []

/-- The lines of a text, cut at each newline character. -/
def splitLines : List Char → List (List Char)
  | [] => [[]]
  | ch :: cs =>
    match splitLines cs with
    | [] => [[ch]]
    | l :: ls => if ch = '\n' then [] :: l :: ls else (ch :: l) :: ls

/-- The option a help line advertises: a line ` -<letter>, --<long_name>`
followed by `=` or a blank gives the letter and the long name. -/
def advertisedLine : List Char → Option (Char × String)
  | ' ' :: '-' :: l :: ',' :: ' ' :: '-' :: '-' :: rest =>
    some (l, String.mk (rest.takeWhile (fun ch => ch != '=' && ch != ' ')))
  | _ => none

/-- The options a help text advertises, in the order of its lines. -/
def advertised (help : String) : List (Char × String) :=
  (splitLines help.data).filterMap advertisedLine

/-! ## The k-mer classifier -/

/-- Modelled from the spec: the range test of the filtering engine, which
is not among the sources (only the argument bundle is). Spec 4.1, raw
interval test: a value is in range iff `low <= value <= high`. -/
def RangePredicate.evaluate (low high value : Nat) : Bool :=
  decide (low ≤ value) && decide (value ≤ high)

/-- Modelled from the spec: membership of a k-mer in the selection, which
the absent filtering engine decides. Spec 4.2: both the count predicate and
the GC predicate hold. -/
def inSelection (a : KmerFilterArgs) (count gc : Nat) : Bool :=
  RangePredicate.evaluate a.low_count a.high_count count &&
    RangePredicate.evaluate a.low_gc a.high_gc gc

/-- The binary outcome of a classification. -/
inductive Decision where
  | Keep
  | Discard
  deriving DecidableEq, Repr

/-- Modelled from the spec: the `classify` operation of the absent
KmerClassifier. Spec 4.2: with polarity DiscardInRange (`discard = true`)
selection members are discarded and everything else kept; with KeepInRange
selection members are kept and everything else discarded. -/
def classify (a : KmerFilterArgs) (count gc : Nat) : Decision :=
  if a.discard then
    if inSelection a count gc then Decision.Discard else Decision.Keep
  else
    if inSelection a count gc then Decision.Keep else Decision.Discard

/-- A k-mer with its stored count (spec 3, KmerRecord). -/
structure KmerRecord where
  kmer : String
  count : Nat
  deriving DecidableEq, Repr

/-- Modelled from the spec: the raw GC content of a k-mer, computed by the
absent engine. Spec 3, GcContent: the count of G/C symbols. -/
def gcCount (kmer : String) : Nat :=
  kmer.data.countP (fun ch => ch == 'G' || ch == 'C')

/-- Modelled from the spec: the absent HashTableFilter in raw GC mode.
Spec 4.4: every record is classified once and the retained ones are
written in the order met. -/
def hashTableFilter (a : KmerFilterArgs) (table : List KmerRecord) : List KmerRecord :=
  table.filter (fun r => classify a r.count (gcCount r.kmer) == Decision.Keep)

/-! ## Helper lemmas -/

theorem toUInt_of_lt (w n : Nat) (h : n < 2 ^ w) : toUInt w (n : Int) = n := by
  unfold toUInt
  have h1 : ((n : Int) % (2 : Int) ^ w) = (n : Int) := by
    apply Int.emod_eq_of_lt
    · exact Int.ofNat_nonneg n
    · exact_mod_cast h
  rw [h1]
  exact Int.toNat_natCast n

theorem code_values :
    code 'o' = 111 ∧ code 'i' = 105 ∧ code 'j' = 106 ∧ code 'l' = 108 ∧
    code 'h' = 104 ∧ code 'x' = 120 ∧ code 'y' = 121 ∧ code 'd' = 100 ∧
    code 'g' = 103 := by
  decide

theorem setOption_seq_file_2 (p64 p16 : String → Int) (s : String) (c : Int)
    (oa : String) (a : KmerFilterArgs) (hc : c ≠ code 'j') :
    (a.setOption p64 p16 s c oa).seq_file_2 = a.seq_file_2 := by
  unfold KmerFilterArgs.setOption
  split_ifs <;> first | contradiction | rfl

theorem setOptions_seq_file_2 (p64 p16 : String → Int) (calls : List OptionCall) :
    ∀ a : KmerFilterArgs, (∀ k ∈ calls, k.c ≠ code 'j') →
      (setOptions p64 p16 calls a).seq_file_2 = a.seq_file_2 := by
  induction calls with
  | nil => intro a _; rfl
  | cons k ks ih =>
    intro a h
    simp only [setOptions]
    rw [ih _ (fun k2 hk2 => h k2 (List.mem_cons_of_mem _ hk2))]
    exact setOption_seq_file_2 p64 p16 _ _ _ a (h k (List.mem_cons_self _ _))

theorem setOption_discard (p64 p16 : String → Int) (s : String) (c : Int)
    (oa : String) (a : KmerFilterArgs) :
    (a.setOption p64 p16 s c oa).discard = (a.discard || decide (c = code 'd')) := by
  obtain ⟨ho, hi, hj, hl, hh, hx, hy, hd, hg⟩ := code_values
  unfold KmerFilterArgs.setOption
  rw [ho, hi, hj, hl, hh, hx, hy, hd, hg]
  split_ifs with h1 h2 h3 h4 h5 h6 h7 h8 h9 <;> simp_all

theorem setOption_gc_perc (p64 p16 : String → Int) (s : String) (c : Int)
    (oa : String) (a : KmerFilterArgs) :
    (a.setOption p64 p16 s c oa).gc_perc = (a.gc_perc || decide (c = code 'g')) := by
  obtain ⟨ho, hi, hj, hl, hh, hx, hy, hd, hg⟩ := code_values
  unfold KmerFilterArgs.setOption
  rw [ho, hi, hj, hl, hh, hx, hy, hd, hg]
  split_ifs with h1 h2 h3 h4 h5 h6 h7 h8 h9 <;> simp_all

theorem setOptions_discard (p64 p16 : String → Int) (calls : List OptionCall) :
    ∀ a : KmerFilterArgs, (setOptions p64 p16 calls a).discard =
      (a.discard || calls.any (fun k => decide (k.c = code 'd'))) := by
  induction calls with
  | nil => intro a; simp [setOptions]
  | cons k ks ih =>
    intro a
    simp only [setOptions, List.any_cons]
    rw [ih, setOption_discard, Bool.or_assoc]

theorem setOptions_gc_perc (p64 p16 : String → Int) (calls : List OptionCall) :
    ∀ a : KmerFilterArgs, (setOptions p64 p16 calls a).gc_perc =
      (a.gc_perc || calls.any (fun k => decide (k.c = code 'g'))) := by
  induction calls with
  | nil => intro a; simp [setOptions]
  | cons k ks ih =>
    intro a
    simp only [setOptions, List.any_cons]
    rw [ih, setOption_gc_perc, Bool.or_assoc]

/-! ## Theorems -/

/-- C1: a freshly constructed `KmerFilterArgs` has `low_count = 0`,
`high_count = 10000`, `low_gc = 0`, `high_gc = 10000`, `discard = false`,
`gc_perc = false`, `output = "kat.ref"` and both sequence files empty; the
16-bit GC constants arrive unchanged in the 32-bit fields. -/
theorem KmerFilterArgs_new_defaults :
    KmerFilterArgs.new.low_count = 0 ∧ KmerFilterArgs.new.high_count = 10000 ∧
    KmerFilterArgs.new.low_gc = 0 ∧ KmerFilterArgs.new.high_gc = 10000 ∧
    KmerFilterArgs.new.discard = false ∧ KmerFilterArgs.new.gc_perc = false ∧
    KmerFilterArgs.new.output = "kat.ref" ∧
    KmerFilterArgs.new.seq_file_1 = "" ∧ KmerFilterArgs.new.seq_file_2 = "" ∧
    KmerFilterArgs.new.low_gc = DEFAULT_REF_LOW_GC ∧
    KmerFilterArgs.new.high_gc = DEFAULT_REF_HIGH_GC ∧
    DEFAULT_REF_LOW_GC = 0 ∧ DEFAULT_REF_HIGH_GC = 10000 := by
  decide

/-- C2: with the classifier modelled from the spec, a k-mer with count `c`
and GC value `g` is in the selection iff `low_count <= c <= high_count` and
`low_gc <= g <= high_gc`; with `discard = false` it is kept iff it is in the
selection, with `discard = true` it is kept iff it is not. The scenario
table with counts 5, 50, 9999 under `low_count = 10`, `high_count = 10000`
and keep polarity retains exactly the entries with counts 50 and 9999. -/
theorem classify_selection_polarity (a : KmerFilterArgs) (c g : Nat) :
    (inSelection a c g = true ↔
      (a.low_count ≤ c ∧ c ≤ a.high_count) ∧ (a.low_gc ≤ g ∧ g ≤ a.high_gc)) ∧
    (classify { a with discard := false } c g = Decision.Keep ↔
      inSelection a c g = true) ∧
    (classify { a with discard := true } c g = Decision.Keep ↔
      ¬ inSelection a c g = true) ∧
    (inSelection { a with discard := false } c g = inSelection a c g ∧
      inSelection { a with discard := true } c g = inSelection a c g) ∧
    hashTableFilter
        { KmerFilterArgs.new with low_count := 10, high_count := 10000, discard := false }
        [⟨"AAAA", 5⟩, ⟨"CCCC", 50⟩, ⟨"GGGG", 9999⟩]
      = [⟨"CCCC", 50⟩, ⟨"GGGG", 9999⟩] := by
  refine ⟨?_, ?_, ?_, ⟨rfl, rfl⟩, by decide⟩
  · simp [inSelection, RangePredicate.evaluate]
  · have hs : inSelection { a with discard := false } c g = inSelection a c g := rfl
    simp only [classify]
    rw [hs]
    cases inSelection a c g <;> simp
  · have hs : inSelection { a with discard := true } c g = inSelection a c g := rfl
    simp only [classify]
    rw [hs]
    cases inSelection a c g <;> simp

/-- C3: the parser does not reject invalid bounds. For all count values
`l`, `h` (also `l > h`) delivered by `strToInt64`, and all GC values `x`,
`y` delivered by `strToInt16`, the calls for `'l'` and `'h'` in either
order leave `low_count = l` and `high_count = h`, the calls for `'x'` and
`'y'` in either order leave `low_gc = x` and `high_gc = y`, and nothing
else of the object changes: no branch looks at the opposite bound. -/
theorem setOption_bounds_not_validated (strToInt64 strToInt16 : String → Int)
    (a : KmerFilterArgs) (l h x y : Nat) (sl sh sx sy oa1 oa2 : String)
    (hl : strToInt64 sl = l) (hh : strToInt64 sh = h)
    (hx : strToInt16 sx = x) (hy : strToInt16 sy = y)
    (hl64 : l < 2 ^ 64) (hh64 : h < 2 ^ 64) (hx32 : x < 2 ^ 32) (hy32 : y < 2 ^ 32) :
    ((a.setOption strToInt64 strToInt16 sl (code 'l') oa1).setOption
        strToInt64 strToInt16 sh (code 'h') oa2
      = { a with low_count := l, high_count := h }) ∧
    ((a.setOption strToInt64 strToInt16 sh (code 'h') oa1).setOption
        strToInt64 strToInt16 sl (code 'l') oa2
      = { a with low_count := l, high_count := h }) ∧
    ((a.setOption strToInt64 strToInt16 sx (code 'x') oa1).setOption
        strToInt64 strToInt16 sy (code 'y') oa2
      = { a with low_gc := x, high_gc := y }) ∧
    ((a.setOption strToInt64 strToInt16 sy (code 'y') oa1).setOption
        strToInt64 strToInt16 sx (code 'x') oa2
      = { a with low_gc := x, high_gc := y }) := by
  obtain ⟨ho, hi, hj, hcl, hch, hcx, hcy, hd, hg⟩ := code_values
  have el := toUInt_of_lt 64 l hl64
  have eh := toUInt_of_lt 64 h hh64
  have ex := toUInt_of_lt 32 x hx32
  have ey := toUInt_of_lt 32 y hy32
  unfold KmerFilterArgs.setOption
  rw [ho, hi, hj, hcl, hch, hcx, hcy, hd, hg]
  simp [hl, hh, hx, hy, el, eh, ex, ey]

/-- Witness for C3 with `l = 20 > h = 5` and `x = 7000 > y = 3000`. -/
theorem setOption_bounds_not_validated_witness :
    ((KmerFilterArgs.new.setOption (fun s => if s = "20" then 20 else 5)
          (fun s => if s = "7000" then 7000 else 3000) "20" (code 'l') "20").setOption
        (fun s => if s = "20" then 20 else 5)
        (fun s => if s = "7000" then 7000 else 3000) "5" (code 'h') "5"
      = { KmerFilterArgs.new with low_count := 20, high_count := 5 }) ∧
    (20 : Nat) > 5 :=
  ⟨(setOption_bounds_not_validated (fun s => if s = "20" then 20 else 5)
      (fun s => if s = "7000" then 7000 else 3000) KmerFilterArgs.new
      20 5 7000 3000 "20" "5" "7000" "3000" "20" "5"
      (by decide) (by decide) (by decide) (by decide)
      (by decide) (by decide) (by decide) (by decide)).1, by decide⟩

/-- C4: the second sequence file is optional. `REF_MIN_ARGS` is 1, and
after any run of `setOption` calls on a fresh object in which no call has
the code `'j'`, `seq_file_2` is still the empty string, whatever the other
calls were (an `'i'` call included). -/
theorem seq_file_2_optional (strToInt64 strToInt16 : String → Int)
    (calls : List OptionCall) (hj : ∀ k ∈ calls, k.c ≠ code 'j') :
    REF_MIN_ARGS = 1 ∧
    (setOptions strToInt64 strToInt16 calls KmerFilterArgs.new).seq_file_2 = "" := by
  refine ⟨by decide, ?_⟩
  rw [setOptions_seq_file_2 strToInt64 strToInt16 calls KmerFilterArgs.new hj]
  rfl

/-- Witness for C4: a single `'i'` call sets `seq_file_1` and leaves
`seq_file_2` empty. -/
theorem seq_file_2_optional_witness :
    (REF_MIN_ARGS = 1 ∧
      (setOptions (fun _ => 0) (fun _ => 0) [⟨"reads.fq", code 'i', "reads.fq"⟩]
        KmerFilterArgs.new).seq_file_2 = "") ∧
    (setOptions (fun _ => 0) (fun _ => 0) [⟨"reads.fq", code 'i', "reads.fq"⟩]
        KmerFilterArgs.new).seq_file_1 = "reads.fq" :=
  ⟨seq_file_2_optional (fun _ => 0) (fun _ => 0) [⟨"reads.fq", code 'i', "reads.fq"⟩]
      (by decide), by decide⟩

/-- C5: starting from the default object, after any run of `setOption`
calls `discard` is true iff some call had the code `'d'`, and `gc_perc` is
true iff some call had the code `'g'`. The defaults are `discard = false`
and `gc_perc = false`, and a single call never turns a flag that is true
back to false. -/
theorem flags_set_iff_code_occurs (strToInt64 strToInt16 : String → Int)
    (calls : List OptionCall) :
    ((setOptions strToInt64 strToInt16 calls KmerFilterArgs.new).discard = true ↔
      ∃ k ∈ calls, k.c = code 'd') ∧
    ((setOptions strToInt64 strToInt16 calls KmerFilterArgs.new).gc_perc = true ↔
      ∃ k ∈ calls, k.c = code 'g') ∧
    KmerFilterArgs.new.discard = false ∧ KmerFilterArgs.new.gc_perc = false ∧
    (∀ (a : KmerFilterArgs) (optarg : String) (c : Int) (option_arg : String),
      ((a.setOption strToInt64 strToInt16 optarg c option_arg).discard
          = (a.discard || decide (c = code 'd'))) ∧
      ((a.setOption strToInt64 strToInt16 optarg c option_arg).gc_perc
          = (a.gc_perc || decide (c = code 'g')))) := by
  refine ⟨?_, ?_, rfl, rfl, ?_⟩
  · rw [setOptions_discard]
    have h0 : KmerFilterArgs.new.discard = false := rfl
    simp [h0]
  · rw [setOptions_gc_perc]
    have h0 : KmerFilterArgs.new.gc_perc = false := rfl
    simp [h0]
  · intro a optarg c option_arg
    exact ⟨setOption_discard _ _ _ _ _ _, setOption_gc_perc _ _ _ _ _ _⟩

/-- C6: the help text and the long-option table disagree on one name. The
help text advertises `-o` as `--output_prefix`, while `longOptions` returns
the nine entries of its array, whose entry for `'o'` is named `output`: no
entry is named `output_prefix`, and the name `output` is advertised
nowhere. The other eight advertised options are in the table under their
advertised names and letters. -/
theorem longOptions_output_name_differs_from_help :
    advertised optionsDescription =
      [('o', "output_prefix"), ('i', "seq_file_1"), ('j', "seq_file_2"),
       ('l', "low_count"), ('h', "high_count"), ('x', "low_gc"), ('y', "high_gc"),
       ('d', "discard_selection"), ('g', "gc_perc")] ∧
    longOptions = some long_options_array ∧
    (∀ o ∈ long_options_array, o.name ≠ "output_prefix") ∧
    (∃ o ∈ long_options_array, o.name = "output" ∧ o.val = code 'o') ∧
    (∀ p ∈ advertised optionsDescription, p.2 ≠ "output") ∧
    (∀ p ∈ advertised optionsDescription, p.1 ≠ 'o' →
      ∃ o ∈ long_options_array, o.name = p.2 ∧ o.val = code p.1) ∧
    (∀ o ∈ long_options_array, o.val ≠ code 'o' →
      ∃ p ∈ advertised optionsDescription, o.name = p.2 ∧ o.val = code p.1) := by
  have hadv : advertised optionsDescription =
      [('o', "output_prefix"), ('i', "seq_file_1"), ('j', "seq_file_2"),
       ('l', "low_count"), ('h', "high_count"), ('x', "low_gc"), ('y', "high_gc"),
       ('d', "discard_selection"), ('g', "gc_perc")] := by decide
  rw [hadv]
  refine ⟨rfl, by decide, by decide, by decide, by decide, by decide, by decide⟩

/-- C7: for every list of remaining arguments of length at least
`REF_MIN_ARGS`, `processRemainingArgs` reads inside the list and returns
the object with `jellyfish_hash` set to the first element and every other
field as before; the elements after the first have no influence. -/
theorem processRemainingArgs_sets_hash (remaining_args : List String)
    (a : KmerFilterArgs) (hlen : REF_MIN_ARGS ≤ remaining_args.length) :
    ∃ first rest, remaining_args = first :: rest ∧
      a.processRemainingArgs remaining_args = some { a with jellyfish_hash := first } ∧
      (∀ others : List String,
        a.processRemainingArgs (first :: others)
          = a.processRemainingArgs remaining_args) := by
  have h1 : REF_MIN_ARGS = 1 := by decide
  rw [h1] at hlen
  cases remaining_args with
  | nil => simp at hlen
  | cons first rest =>
    refine ⟨first, rest, rfl, ?_, ?_⟩
    · simp [KmerFilterArgs.processRemainingArgs]
    · intro others
      simp [KmerFilterArgs.processRemainingArgs]

/-- Witness for C7: two remaining arguments, the first is taken. -/
theorem processRemainingArgs_sets_hash_witness :
    ∃ first rest, ["reads.jf", "extra"] = first :: rest ∧
      KmerFilterArgs.new.processRemainingArgs ["reads.jf", "extra"]
        = some { KmerFilterArgs.new with jellyfish_hash := first } ∧
      (∀ others : List String,
        KmerFilterArgs.new.processRemainingArgs (first :: others)
          = KmerFilterArgs.new.processRemainingArgs ["reads.jf", "extra"]) :=
  processRemainingArgs_sets_hash ["reads.jf", "extra"] KmerFilterArgs.new (by decide)

/-- C8: `setOption` changes at most one field per call. Code `'o'` changes
only `output`, `'i'` only `seq_file_1`, `'j'` only `seq_file_2`, `'l'` only
`low_count`, `'h'` only `high_count`, `'x'` only `low_gc`, `'y'` only
`high_gc`, `'d'` only `discard`, `'g'` only `gc_perc`; any other code
returns the object unchanged, `jellyfish_hash` included. -/
theorem setOption_frame (strToInt64 strToInt16 : String → Int) (optarg : String)
    (option_arg : String) (a : KmerFilterArgs) :
    a.setOption strToInt64 strToInt16 optarg (code 'o') option_arg
      = { a with output := optarg } ∧
    a.setOption strToInt64 strToInt16 optarg (code 'i') option_arg
      = { a with seq_file_1 := optarg } ∧
    a.setOption strToInt64 strToInt16 optarg (code 'j') option_arg
      = { a with seq_file_2 := optarg } ∧
    a.setOption strToInt64 strToInt16 optarg (code 'l') option_arg
      = { a with low_count := toUInt 64 (strToInt64 optarg) } ∧
    a.setOption strToInt64 strToInt16 optarg (code 'h') option_arg
      = { a with high_count := toUInt 64 (strToInt64 optarg) } ∧
    a.setOption strToInt64 strToInt16 optarg (code 'x') option_arg
      = { a with low_gc := toUInt 32 (strToInt16 optarg) } ∧
    a.setOption strToInt64 strToInt16 optarg (code 'y') option_arg
      = { a with high_gc := toUInt 32 (strToInt16 optarg) } ∧
    a.setOption strToInt64 strToInt16 optarg (code 'd') option_arg
      = { a with discard := true } ∧
    a.setOption strToInt64 strToInt16 optarg (code 'g') option_arg
      = { a with gc_perc := true } ∧
    (∀ c : Int,
      c ∉ [code 'o', code 'i', code 'j', code 'l', code 'h', code 'x', code 'y',
            code 'd', code 'g'] →
      a.setOption strToInt64 strToInt16 optarg c option_arg = a) := by
  obtain ⟨ho, hi, hj, hl, hh, hx, hy, hd, hg⟩ := code_values
  unfold KmerFilterArgs.setOption
  rw [ho, hi, hj, hl, hh, hx, hy, hd, hg]
  refine ⟨by simp, by simp, by simp, by simp, by simp, by simp, by simp, by simp,
    by simp, ?_⟩
  intro c hc
  simp only [List.mem_cons, List.mem_singleton, List.not_mem_nil, or_false, not_or] at hc
  obtain ⟨h1, h2, h3, h4, h5, h6, h7, h8, h9⟩ := hc
  simp [h1, h2, h3, h4, h5, h6, h7, h8, h9]

/-- Witness for C8 at a code outside the switch, `'?'`, and at `'l'`, on an
object whose ten fields are pairwise recognisable. -/
theorem setOption_frame_witness :
    (⟨1, 2, 3, 4, false, false, "o", "s1", "s2", "jf"⟩ : KmerFilterArgs).setOption
        (fun _ => 77) (fun _ => 88) "arg" (code '?') "arg"
      = ⟨1, 2, 3, 4, false, false, "o", "s1", "s2", "jf"⟩ ∧
    (⟨1, 2, 3, 4, false, false, "o", "s1", "s2", "jf"⟩ : KmerFilterArgs).setOption
        (fun _ => 77) (fun _ => 88) "arg" (code 'l') "arg"
      = ⟨77, 2, 3, 4, false, false, "o", "s1", "s2", "jf"⟩ :=
  ⟨(setOption_frame (fun _ => 77) (fun _ => 88) "arg" "arg"
      ⟨1, 2, 3, 4, false, false, "o", "s1", "s2", "jf"⟩).2.2.2.2.2.2.2.2.2
      (code '?') (by decide),
   by decide⟩

end kat
